import Mathlib

/-!
# Verification of the DhanX income-allocation core

Shallow embedding of the allocation engine, the sync eligibility diff, the
connection reconnect semantics, the policy-percentage clamping and the
goal-lifecycle completion handler of the DhanX backend
(`backend/routers/connections.py`, `backend/routers/agentic_ai.py`,
`backend/routers/ai_coach.py`, `backend/crud.py`), together with theorems
settling the specification's claims about these components.

Monetary amounts (Python floats / Decimals in the source) are modelled as
rationals; timestamps as integers on a single monotone time axis (the
source converts every side of each comparison to IST with the same fixed
offset, so comparisons are preserved).
-/

namespace DhanX

/-- Python's `int()` truncation toward zero, on rationals
(`int(x)` in `determine_allocation_percentages` and the goal planner). -/
def pyInt (q : ℚ) : ℚ := if q < 0 then ((-⌊-q⌋ : ℤ) : ℚ) else ((⌊q⌋ : ℤ) : ℚ)

/-- Python's `str.lower()` (ASCII range, as used on goal names and
transaction types). -/
def strLower (s : String) : String := ⟨s.data.map Char.toLower⟩

/-- Tests whether `p` is an initial segment of a list (helper for substring search). -/
def charsLeadOf : List Char → List Char → Bool
  | [], _ => true
  | _ :: _, [] => false
  | a :: as, b :: bs => a == b && charsLeadOf as bs

/-- Tests whether `pat` occurs contiguously inside a list (helper for substring search). -/
def charsSubOf (pat : List Char) : List Char → Bool
  | [] => charsLeadOf pat []
  | c :: rest => charsLeadOf pat (c :: rest) || charsSubOf pat rest

/-- Tests whether `pat` occurs as a contiguous substring of `hay`
(Python's `keyword in goal_name`). -/
def strContainsSub (hay pat : String) : Bool :=
  charsSubOf pat.toList hay.toList

/-- A goal row (`goals` table): id, name, type tag, target, saved, completion flag. -/
structure Goal where
  id : String
  name : String
  gtype : String
  target : ℚ
  saved : ℚ
  is_completed : Bool
deriving DecidableEq, Repr

/-- A transaction record inside a connection payload. `timestamp = none`
models a missing/unparsable timestamp (and the `date` fallback collapses
into the same optional value, as both are normalized to one datetime). -/
structure RawTxn where
  id : String
  ttype : String
  amount : ℚ
  timestamp : Option ℤ
  description : String
deriving DecidableEq, Repr

/-- An entry of `new_income_transactions` handed to the allocation task:
the dict `{"amount", "date", "description", "id"}` built by the sync. -/
structure IncomeTxn where
  amount : ℚ
  date : ℤ
  description : String
  id : String
deriving DecidableEq, Repr

/-- One proposed goal allocation inside an allocation plan
(`{"goal_id": ..., "percent": ..., "amount": ...}`; only the fields the
execution path reads are kept). -/
structure GoalAlloc where
  goal_id : String
  amount : ℚ
deriving DecidableEq, Repr

/-- The allocation plan consumed by `allocate_income_from_sync`: the
emergency-fund amount plus the per-goal amounts
(result of `determine_allocation_percentages`). -/
structure Plan where
  emergency_amount : ℚ
  goal_allocations : List GoalAlloc
deriving DecidableEq, Repr

/-- A successful `ALLOCATE_TO_GOAL` tool result, as recorded in
`allocation_actions` (`_allocate_to_goal_tool` reports the requested
amount, not the applied delta). -/
structure Action where
  goal_id : String
  allocated : ℚ
  completed : Bool
deriving DecidableEq, Repr

/-- Observable events of the allocation task, in program order. Each
`update_goal` / `update_connection` call and the trailing raw-SQL
`last_sync` update issues its own `db.commit()`; email and streak are
non-database side effects. -/
inductive Ev where
  | commitGoalSaved (gid : String)
  | commitGoalCompleted (gid : String)
  | streakUpdate
  | emailSend
  | commitIdsAppend (ids : List String)
  | commitLastSync
deriving DecidableEq, Repr

/-- The tool `_allocate_to_goal_tool` (`agentic_ai.py`): add `amount` to `saved`,
cap at `target`, and flip `is_completed` when the capped value reaches the
target. Returns the updated goal and the `completed` flag it reports. -/
def applyAllocPair (g : Goal) (amount : ℚ) : Goal × Bool :=
  let ns0 := g.saved + amount
  let ns := if ns0 > g.target then g.target else ns0
  let comp := decide (ns ≥ g.target)
  ({ g with saved := ns, is_completed := comp || g.is_completed }, comp)

/-- The goal state after `_allocate_to_goal_tool`. -/
def applyAlloc (g : Goal) (amount : ℚ) : Goal := (applyAllocPair g amount).1

/-- The tool `_allocate_to_goal_tool` against the goal table: `update_goal` updates
the (unique-keyed) row whose id matches, committing once for the `saved`
update and once more for the `is_completed` flip. Returns the new table,
the recorded action (if the goal was found) and the commit events. -/
def allocToDB : List Goal → String → ℚ → List Goal × Option Action × List Ev
  | [], _, _ => ([], none, [])
  | g :: gs, gid, a =>
    if g.id == gid then
      ((applyAllocPair g a).1 :: gs, some ⟨gid, a, (applyAllocPair g a).2⟩,
        Ev.commitGoalSaved gid ::
          (if (applyAllocPair g a).2 then [Ev.commitGoalCompleted gid] else []))
    else
      (g :: (allocToDB gs gid a).1, (allocToDB gs gid a).2.1, (allocToDB gs gid a).2.2)

/-- The double-check filter at the entry of `allocate_income_from_sync`
(lines 681-688): drop any transaction whose (truthy) id is already in
`allocated_transaction_ids`. -/
def entryFilter (allocated : List String) (txns : List IncomeTxn) : List IncomeTxn :=
  txns.filter (fun t => !(!(t.id == "") && allocated.contains t.id))

/-- Placeholder goal used only as the (unreachable) default of guarded
list projections. -/
def defaultGoal : Goal := ⟨"", "", "", 0, 0, false⟩

/-- The emergency-fund step of `allocate_income_from_sync` (lines
905-924): allocate `min(remaining, planned)` to the first active
emergency goal, when positive. Reads target/saved from the goal snapshot. -/
def emergencyPhase (active : List Goal) (emAmt : ℚ) (db : List Goal) :
    List Goal × List Action × List Ev :=
  let ems := active.filter (fun g => g.gtype == "emergency")
  if ems.isEmpty then (db, [], [])
  else
    let e := ems.headD defaultGoal
    if emAmt > 0 then
      let remaining := e.target - e.saved
      if remaining > 0 ∧ e.target > 0 then
        let alloc := min remaining emAmt
        if alloc > 0 then
          let s := allocToDB db e.id alloc
          (s.1, s.2.1.toList, s.2.2)
        else (db, [], [])
      else (db, [], [])
    else (db, [], [])

/-- The regular-goal loop of `allocate_income_from_sync` (lines 926-966):
match each planned allocation to a goal by id, fall back to the first
remaining regular goal (popping it), skip zero-target goals, clamp to the
snapshot's `target - saved` and execute when positive. -/
def regLoop : List GoalAlloc → List Goal → List Goal → List Goal × List Action × List Ev
  | [], _, db => (db, [], [])
  | ga :: rest, regs, db =>
    let found := regs.find? (fun g => g.id == ga.goal_id)
    let m? : Option Goal := if found.isNone then regs.head? else found
    let regs' : List Goal := if found.isNone then regs.tail else regs
    if m?.isNone then regLoop rest regs' db
    else
      let m := m?.getD defaultGoal
      if ga.amount > 0 then
        if m.target == 0 then regLoop rest regs' db
        else
          let rem := m.target - m.saved
          if rem > 0 then
            let alloc := min rem ga.amount
            if alloc > 0 then
              let s := allocToDB db m.id alloc
              let f := regLoop rest regs' s.1
              (f.1, s.2.1.toList ++ f.2.1, s.2.2 ++ f.2.2)
            else regLoop rest regs' db
          else regLoop rest regs' db
      else regLoop rest regs' db

/-- Result of one run of the sync-driven allocation task. -/
structure SyncResult where
  db : List Goal
  allocated_ids : List String
  actions : List Action
  trace : List Ev
deriving DecidableEq, Repr

/-- The goal-allocation block of `allocate_income_from_sync` (lines
884-971): when there are active goals, run the emergency step against
them, then the regular-goal loop over the plan. -/
def allocPhase (goals : List Goal) (plan : Plan) : List Goal × List Action × List Ev :=
  let active := goals.filter (fun g => !g.is_completed)
  if active.isEmpty then (goals, [], [])
  else
    let e := emergencyPhase active plan.emergency_amount goals
    let regs := active.filter (fun g => !(g.gtype == "emergency"))
    let r := regLoop plan.goal_allocations regs e.1
    (r.1, e.2.1 ++ r.2.1, e.2.2 ++ r.2.2)

/-- The id-marking block (lines 1031-1104): append the batch's truthy,
not-yet-recorded transaction ids to `allocated_transaction_ids` and
commit via `update_connection` (when anything is left to append). -/
def markIds (already : List String) (filtered : List IncomeTxn) : List String × List Ev :=
  let allocatedIds := (filtered.map (fun t => t.id)).filter (fun i => !(i == ""))
  if allocatedIds.isEmpty then (already, [])
  else
    let newIds := allocatedIds.filter (fun i => !(already.contains i))
    if newIds.isEmpty then (already, [])
    else (already ++ newIds, [Ev.commitIdsAppend newIds])

/-- The task `allocate_income_from_sync` (`connections.py` lines 675-1135), from
the point where the goal set has been (re)loaded: filter already-allocated
ids (returning early when nothing is left), allocate the plan to the
active goals, dispatch streak and email side effects when anything was
allocated, mark the whole batch's ids, and bump `last_sync` (one raw-SQL
commit). Goal creation and adaptive target resizing happen before this
point and are reflected in `goals`. -/
def runAllocation (goals : List Goal) (plan : Plan) (txnsIn : List IncomeTxn)
    (alreadyAllocated : List String) : SyncResult :=
  let filtered := entryFilter alreadyAllocated txnsIn
  if filtered.isEmpty then
    ⟨goals, alreadyAllocated, [], []⟩
  else
    let ap := allocPhase goals plan
    let acts := ap.2.1
    let se := if acts.isEmpty then ([] : List Ev) else [Ev.streakUpdate, Ev.emailSend]
    let mk := if !acts.isEmpty && !filtered.isEmpty then markIds alreadyAllocated filtered
      else (alreadyAllocated, ([] : List Ev))
    let trLast := if acts.isEmpty then ([] : List Ev) else [Ev.commitLastSync]
    ⟨ap.1, mk.1, acts, ap.2.2 ++ se ++ mk.2 ++ trLast⟩

/-- The percentage-capping step of `determine_allocation_percentages`
(`ai_coach.py` lines 697-712): clamp the emergency percentage to [0, 15]
and every per-goal percentage to [0, 25], then convert to truncated
amounts of the income. -/
def mkPlanCaps (income : ℚ) (emergencyPercent : ℚ) (goalPercents : List (String × ℚ)) : Plan :=
  let ep := max 0 (min 15 emergencyPercent)
  { emergency_amount := pyInt (income * ep / 100),
    goal_allocations := goalPercents.map (fun p =>
      let p' := max 0 (min 25 p.2)
      ⟨p.1, pyInt (income * p' / 100)⟩) }

/-- Total credit amount of an income set. -/
def totalAmount (txns : List IncomeTxn) : ℚ := (txns.map (fun t => t.amount)).sum

/-- Sum of all goal balances in a goal table. -/
def sumSaved (db : List Goal) : ℚ := (db.map (fun g => g.saved)).sum

/-- Stand-in for Python's string hash in the generated fallback id
(`hash(str(description)[:20]) % 10000`); a fixed polynomial hash. No
claim depends on its value, only on the generated id being non-empty. -/
def strHash (s : String) : ℕ :=
  s.toList.foldl (fun h c => h * 31 + c.toNat) 7

/-- The stable fallback id generated for a credit transaction that
carries no id (`sync_payment_gateway` line 1859):
`auto_{date}_{int(amount)}_{hash % 10000}`. -/
def autoId (today : ℤ) (amount : ℚ) (descr : String) : String :=
  "auto_" ++ toString today ++ "_" ++ toString (pyInt amount) ++ "_"
    ++ toString (strHash (descr.take 20) % 10000)

/-- Eligibility of one payload transaction in `sync_payment_gateway`
(lines 1786-1895): credits with positive amount, id not already
allocated, and dated in the future or strictly after both the cutoff
and the connection creation time. Missing timestamps fall back to `today`. -/
def eligTxn (allocated : List String) (createdAt cutoff today : ℤ) (txn : RawTxn) :
    Option IncomeTxn :=
  if strLower txn.ttype == "credit" then
    if txn.amount > 0 then
      let d := txn.timestamp.getD today
      let tid := if txn.id == "" then autoId today txn.amount txn.description else txn.id
      if !(tid == "") && allocated.contains tid then none
      else if d > today || (decide (d > cutoff) && decide (d > createdAt)) then
        some ⟨txn.amount, d, txn.description, tid⟩
      else none
    else none
  else none

/-- The `NewIncomeSet` diff computed by `sync_payment_gateway`
(lines 1750-1895): cutoff is the later of the previous `last_sync` and the
connection creation time (creation time alone when never synced; a
365-day-old floor when `created_at` is absent). -/
def newIncomeSet (txns : List RawTxn) (allocated : List String)
    (created_at prev_last_sync : Option ℤ) (today : ℤ) : List IncomeTxn :=
  let createdAt := created_at.getD (today - 365)
  let cutoff := match prev_last_sync with
    | some p => max p createdAt
    | none => createdAt
  txns.filterMap (eligTxn allocated createdAt cutoff today)

/-- The income filter of `allocate_income_from_new_connection`
(`connections.py` lines 1205-1250): credits with positive amount and a
parsable timestamp `>= connection.created_at` (creation time falls back
to `last_sync`, then to the current time). Note the non-strict
comparison and the absence of an allocated-ids check. -/
def newConnIncome (txns : List RawTxn) (created_at last_sync : Option ℤ) (now : ℤ) :
    List IncomeTxn :=
  let ca := created_at.getD (last_sync.getD now)
  txns.filterMap (fun txn =>
    if strLower txn.ttype == "credit" then
      if txn.amount > 0 then
        match txn.timestamp with
        | some d => if d ≥ ca then some ⟨txn.amount, d, txn.description, txn.id⟩ else none
        | none => none
      else none
    else none)

/-- A persisted connection payload. `allocated_transaction_ids = none`
models a JSON document in which the key is absent (`dict.get` with a
default models reads; assignment models writes). -/
structure Payload where
  allocated_transaction_ids : Option (List String)
  transactions : List RawTxn
deriving DecidableEq, Repr

/-- The payload `{}` produced when the incoming `connection_data` is
falsy in `create_connection`. -/
def emptyPayload : Payload := ⟨none, []⟩

/-- A `payment_connections` row (the fields the claims touch).
`data = none` models a NULL `connection_data` column. -/
structure Conn where
  name : String
  status : String
  data : Option Payload
deriving DecidableEq, Repr

/-- The `ConnectionCreate` input: display name plus the (already merged)
payload; `data = none` models a falsy `connection_data`. -/
structure ConnCreate where
  name : String
  data : Option Payload
deriving DecidableEq, Repr

/-- The `allocated_transaction_ids` of a connection as every reader
observes it (`connection_data.get("allocated_transaction_ids", [])`,
with NULL data read as the empty list). -/
def allocatedOf (c : Conn) : List String :=
  match c.data with
  | some d => d.allocated_transaction_ids.getD []
  | none => []

/-- The function `crud.create_connection` (lines 144-258) against the single row with
the matching name (`none` = no such row): reject reconnecting a connected
row; reuse a disconnected row, restoring its non-empty
`allocated_transaction_ids` over the incoming payload (or defaulting the
key to `[]`); otherwise insert a fresh row. -/
def createConnection (existing : Option Conn) (c : ConnCreate) : Except String Conn :=
  match existing with
  | some ex =>
    if ex.name == c.name then
      if ex.status == "connected" then .error "already connected"
      else
        let preserved := allocatedOf ex
        let merged := c.data.getD emptyPayload
        let merged :=
          if preserved ≠ [] then { merged with allocated_transaction_ids := some preserved }
          else if merged.allocated_transaction_ids = none then
            { merged with allocated_transaction_ids := some [] }
          else merged
        .ok { name := ex.name, status := "connected", data := some merged }
    else .ok { name := c.name, status := "connected", data := c.data }
  | none => .ok { name := c.name, status := "connected", data := c.data }

/-- The function `crud.disconnect_connection` (lines 348-383): soft delete, the row is
retained and only `status` flips. -/
def disconnectConnection (c : Conn) : Conn := { c with status := "disconnected" }

/-- Urgency classification of a goal with a parsed deadline in
`determine_allocation_percentages` (`ai_coach.py` lines 532-545),
including the low-progress upgrade. -/
def urgencyFromDays (days : ℤ) (progress : ℚ) : String :=
  let u := if days < 0 then "overdue"
    else if days ≤ 30 then "urgent"
    else if days ≤ 90 then "moderate"
    else if days ≤ 180 then "normal"
    else "low"
  if progress < 50 ∧ days ≤ 60 then "urgent" else u

/-- The goal summary handed to the policy prompt (name kept for
identification). A goal without a parsable deadline has
`days_until_deadline = none` and urgency `"low"`. -/
structure GoalInfo where
  name : String
  days_until_deadline : Option ℤ
  progress : ℚ
  urgency : String
deriving DecidableEq, Repr

/-- Build a `GoalInfo` the way the summary loop does. -/
def mkGoalInfo (name : String) (days : Option ℤ) (progress : ℚ) : GoalInfo :=
  ⟨name, days, progress, match days with
    | some d => urgencyFromDays d progress
    | none => "low"⟩

/-- The rank table `urgency_order` (`ai_coach.py` line 565). -/
def urgencyOrder (u : String) : ℕ :=
  if u == "overdue" then 0
  else if u == "urgent" then 1
  else if u == "moderate" then 2
  else if u == "normal" then 3
  else 4

/-- The sort key of line 566-570: `(urgency rank, days or 9999,
-progress)` — note the negated progress. -/
def goalKey (g : GoalInfo) : ℕ × ℤ × ℚ :=
  (urgencyOrder g.urgency, g.days_until_deadline.getD 9999, -g.progress)

/-- Non-strict lexicographic comparison of sort keys. -/
def keyLE : ℕ × ℤ × ℚ → ℕ × ℤ × ℚ → Bool
  | (a1, b1, c1), (a2, b2, c2) =>
    a1 < a2 || (a1 == a2 && (b1 < b2 || (b1 == b2 && c1 ≤ c2)))

/-- Stable insertion: place `x` after every element that compares
less-or-equal, as Python's stable `list.sort` does. -/
def insertSorted (le : α → α → Bool) (x : α) : List α → List α
  | [] => [x]
  | y :: ys => if le y x then y :: insertSorted le x ys else x :: y :: ys

/-- Stable ascending sort (left fold of stable insertions; agrees with
Python's `list.sort` for a total preorder). -/
def stableSort (le : α → α → Bool) (xs : List α) : List α :=
  xs.foldl (fun acc x => insertSorted le x acc) []

/-- The goal-summary sort of `determine_allocation_percentages`. -/
def sortGoalsInfo (l : List GoalInfo) : List GoalInfo :=
  stableSort (fun a b => keyLE (goalKey a) (goalKey b)) l

/-- Recurring-goal keywords (`agentic_ai.py` line 735). -/
def recurringKeywords : List String :=
  ["vacation", "monthly", "savings", "emergency", "buffer", "reserve", "fund"]

/-- One-time-goal keywords (`agentic_ai.py` line 739). -/
def oneTimeKeywords : List String :=
  ["buy", "purchase", "phone", "laptop", "wedding", "car", "house", "gift"]

/-- The tool `_update_goal_tool` restricted to a target-only update
(`agentic_ai.py` lines 236-265): set the new target and unmark
completion only when the goal was completed and the new target exceeds
the saved amount. -/
def updateGoalTargetTool (g : Goal) (newTarget : ℚ) : Goal :=
  let unmark := g.is_completed && decide (newTarget > g.saved)
  { g with target := newTarget, is_completed := if unmark then false else g.is_completed }

/-- The completed-goal reaction of `agentic_goal_planner_agent`
(`agentic_ai.py` lines 729-758) as it affects the completed goal itself:
when the lowercase name contains a recurring keyword (or the type is
exactly `"emergency"`), no one-time keyword occurs in the name, and
recent income is positive, raise the target to `int(target * 1.25)` via
the update tool. The one-time branch creates a separate goal and leaves
this goal untouched. -/
def handleCompletedGoal (g : Goal) (recentIncome : ℚ) : Goal :=
  if !g.is_completed then g
  else
    let gname := strLower g.name
    let isRec := recurringKeywords.any (fun k => strContainsSub gname k) || g.gtype == "emergency"
    let isOne := oneTimeKeywords.any (fun k => strContainsSub gname k)
    if isRec && !isOne && decide (recentIncome > 0) then
      updateGoalTargetTool g (pyInt (g.target * (5 / 4 : ℚ)))
    else g

/-- Modelled from the spec: rounding (half up) to the nearest integer,
used only to state the claim's `round(1.25 × target)` (the source
instead truncates with `int()`). -/
def specRound (q : ℚ) : ℚ := ((⌊q + (1 : ℚ) / 2⌋ : ℤ) : ℚ)

/-- Modelled from the spec: "name or type matches
`emergency|vacation|monthly|savings|buffer|reserve|fund`". Used only to
state the claim; the source checks keywords against the name and the
type only against the literal `"emergency"`. -/
def specRecurringMatch (g : Goal) : Bool :=
  recurringKeywords.any (fun k =>
    strContainsSub (strLower g.name) k || strContainsSub (strLower g.gtype) k)

/-- Commit events in a trace. -/
def isCommit : Ev → Bool
  | Ev.commitGoalSaved _ => true
  | Ev.commitGoalCompleted _ => true
  | Ev.commitIdsAppend _ => true
  | Ev.commitLastSync => true
  | _ => false

/-- Goal-table commit events. -/
def isGoalCommit : Ev → Bool
  | Ev.commitGoalSaved _ => true
  | Ev.commitGoalCompleted _ => true
  | _ => false

/-- Non-database side effects (email, streak). -/
def isSideEffect : Ev → Bool
  | Ev.streakUpdate => true
  | Ev.emailSend => true
  | _ => false

/-- Number of database commits in a trace. -/
def countCommits (tr : List Ev) : ℕ := (tr.filter isCommit).length

/-- Holds (as a boolean) when some commit occurs after some side effect in the trace. -/
def commitAfterSideEffect : List Ev → Bool
  | [] => false
  | e :: rest =>
    (isSideEffect e && rest.any isCommit) || commitAfterSideEffect rest

/-- Modelled from the spec: claim C2's atomicity property over an
observable trace — all database work happens in one commit and side
effects are dispatched only after it. -/
def singleTxnClaim (tr : List Ev) : Prop :=
  countCommits tr ≤ 1 ∧ commitAfterSideEffect tr = false

/-! ### Concrete fixtures for counterexamples and witnesses -/

/-- A single active savings goal. -/
def goalA : Goal := ⟨"g1", "G1", "savings", 100, 0, false⟩

/-- Goal table holding just `goalA`. -/
def goalsA : List Goal := [goalA]

/-- A plan giving 40 to goal `g1` and nothing to the emergency fund. -/
def planA : Plan := ⟨0, [⟨"g1", 40⟩]⟩

/-- Two new income transactions; only part of `t1` is ever applied. -/
def txnsA : List IncomeTxn := [⟨40, 0, "", "t1"⟩, ⟨60, 0, "", "t2"⟩]

/-- A single wide-open regular goal. -/
def goalsC5 : List Goal := [⟨"r1", "G1", "savings", 1000, 0, false⟩]

/-- A plan produced by the capping step from a policy response with five
25% allocations naming the same goal (ids are matched without removal,
and each allocation is clamped against the stale snapshot). -/
def planC5 : Plan :=
  mkPlanCaps 100 15 [("r1", 25), ("r1", 25), ("r1", 25), ("r1", 25), ("r1", 25)]

/-- The single ₹100 credit the five-allocation plan is computed from. -/
def txnsC5 : List IncomeTxn := [⟨100, 0, "", "t1"⟩]

/-- A goal table whose only goal is already completed. -/
def doneGoals : List Goal := [⟨"g1", "G1", "savings", 100, 100, true⟩]

/-- A credit transaction timestamped exactly at the connection's
creation time (50). -/
def txnAtCreation : RawTxn := ⟨"t1", "credit", 100, some 50, "pay"⟩

/-- A credit transaction with an id distinct from any allocated id. -/
def rawCredit : RawTxn := ⟨"y", "credit", 10, some 60, "d"⟩

/-- A completed one-time goal whose `type` is `"savings"`. -/
def carGoal : Goal := ⟨"c", "Car", "savings", 1000, 1000, true⟩

/-- The completed recurring goal of spec scenario S5. -/
def vacGoal : Goal := ⟨"v", "Vacation Fund", "savings", 5000, 5000, true⟩

/-- Goal summary with 20% progress (deadline 200 days out). -/
def infoA20 : GoalInfo := mkGoalInfo "A20" (some 200) 20

/-- Goal summary with 80% progress (deadline 200 days out). -/
def infoB80 : GoalInfo := mkGoalInfo "B80" (some 200) 80

/-- A partially funded goal for the clamping witness. -/
def goalW : Goal := ⟨"w", "W", "savings", 10, 2, false⟩

/-! ### Theorems -/

/-- C3: after every committed allocation through `_allocate_to_goal_tool`,
`0 ≤ saved ≤ target` holds, the balance increases by at most
`target − saved`, and `is_completed` is set when `saved` reaches the
target. -/
theorem allocation_clamped_and_completes (g : Goal) (a : ℚ)
    (ha : 0 ≤ a) (h0 : 0 ≤ g.saved) (h1 : g.saved ≤ g.target) :
    0 ≤ (applyAlloc g a).saved ∧ (applyAlloc g a).saved ≤ g.target ∧
    (applyAlloc g a).saved - g.saved ≤ g.target - g.saved ∧
    ((applyAlloc g a).saved = g.target → (applyAlloc g a).is_completed = true) := by
  simp only [applyAlloc, applyAllocPair]
  split_ifs with hc
  · refine ⟨le_trans h0 h1, le_refl _, by linarith, fun _ => ?_⟩
    simp
  · push_neg at hc
    refine ⟨by linarith, hc, by linarith, fun he => ?_⟩
    simp only [he]
    simp

/-- Witness for C3 at the concrete goal `goalW` and amount 3. -/
theorem allocation_clamped_and_completes_witness :
    ((0 : ℚ) ≤ 3 ∧ 0 ≤ goalW.saved ∧ goalW.saved ≤ goalW.target) ∧
    (0 ≤ (applyAlloc goalW 3).saved ∧ (applyAlloc goalW 3).saved ≤ goalW.target ∧
     (applyAlloc goalW 3).saved - goalW.saved ≤ goalW.target - goalW.saved ∧
     ((applyAlloc goalW 3).saved = goalW.target → (applyAlloc goalW 3).is_completed = true)) :=
  ⟨⟨by decide, by decide, by decide⟩,
   allocation_clamped_and_completes goalW 3 (by decide) (by decide) (by decide)⟩

/-- C9 (code bug): the low-progress upgrade does classify a goal 50 days
out at 30% progress as urgent, but on equal urgency and equal
days-to-deadline the sort key `-progress` places the 80%-progress goal
before the 20% one — progress descending, not ascending as specified
(the adjacent comment "Lower progress = higher priority" says the
opposite of what the code does). -/
theorem urgency_sort_orders_progress_descending :
    urgencyFromDays 50 30 = "urgent" ∧
    infoA20.urgency = infoB80.urgency ∧
    infoA20.days_until_deadline = infoB80.days_until_deadline ∧
    infoA20.progress < infoB80.progress ∧
    sortGoalsInfo [infoA20, infoB80] = [infoB80, infoA20] := by decide

/-- C4 (code bug): a credit dated exactly at `connection.created_at`
(both 50 here) is excluded by the strict comparison of
`sync_payment_gateway` but IS emitted by
`allocate_income_from_new_connection`, whose filter uses `>=` against
the creation time despite its own comment "transactions that occurred
AFTER connection was created". -/
theorem creation_timestamp_included_in_new_connection_path :
    newIncomeSet [txnAtCreation] [] (some 50) none 100 = [] ∧
    newConnIncome [txnAtCreation] (some 50) none 100 = [⟨100, 50, "pay", "t1"⟩] := by
  constructor
  · norm_num [newIncomeSet, eligTxn, txnAtCreation, List.filterMap_cons,
      (by decide : strLower "credit" = "credit")]
  · norm_num [newConnIncome, txnAtCreation, List.filterMap_cons,
      (by decide : strLower "credit" = "credit")]

/-- C8 counterexample: `carGoal` is completed, recent income 500 is
positive, and its type `"savings"` matches the spec's recurring pattern
`emergency|vacation|monthly|savings|buffer|reserve|fund`; the claim
demands its target be bumped and `is_completed` flipped to false, but
the completed-goal handler leaves the goal untouched (keywords are only
matched against the name; the type is compared only to `"emergency"`,
and `"car"` is a one-time keyword). -/
theorem recurring_match_ignores_type_counterexample :
    specRecurringMatch carGoal = true ∧ carGoal.is_completed = true ∧
    ((0 : ℚ) < 500) ∧ handleCompletedGoal carGoal 500 = carGoal ∧
    (handleCompletedGoal carGoal 500).is_completed = true ∧
    (handleCompletedGoal carGoal 500).target = 1000 := by decide

/-- C8 as amended: when a completed goal's lowercase name contains a
recurring keyword or its type is exactly `"emergency"`, no one-time
keyword occurs in the name, recent income is positive, and the truncated
bump `int(1.25 × target)` exceeds the saved amount, then the handler
sets `target = int(1.25 × target)` (truncation, not rounding), flips
`is_completed` back to false, and leaves `saved` unchanged. -/
theorem recurring_goal_target_bump (g : Goal) (inc : ℚ)
    (hc : g.is_completed = true)
    (hrec : (recurringKeywords.any (fun k => strContainsSub (strLower g.name) k)
      || g.gtype == "emergency") = true)
    (hone : oneTimeKeywords.any (fun k => strContainsSub (strLower g.name) k) = false)
    (hinc : 0 < inc)
    (hbump : g.saved < pyInt (g.target * (5 / 4 : ℚ))) :
    (handleCompletedGoal g inc).target = pyInt (g.target * (5 / 4 : ℚ)) ∧
    (handleCompletedGoal g inc).is_completed = false ∧
    (handleCompletedGoal g inc).saved = g.saved := by
  simp only [handleCompletedGoal, updateGoalTargetTool, hc, hrec, hone]
  simp [hinc, hc, hbump]

/-- Witness for C8 at spec scenario S5: `Vacation Fund`, target 5000,
saved 5000, completed; income 500; the target becomes 6250 and the goal
is active again. -/
theorem recurring_goal_target_bump_witness :
    (vacGoal.is_completed = true ∧
     (recurringKeywords.any (fun k => strContainsSub (strLower vacGoal.name) k)
       || vacGoal.gtype == "emergency") = true ∧
     oneTimeKeywords.any (fun k => strContainsSub (strLower vacGoal.name) k) = false ∧
     ((0 : ℚ) < 500) ∧ vacGoal.saved < pyInt (vacGoal.target * (5 / 4 : ℚ))) ∧
    pyInt (vacGoal.target * (5 / 4 : ℚ)) = 6250 ∧
    ((handleCompletedGoal vacGoal 500).target = pyInt (vacGoal.target * (5 / 4 : ℚ)) ∧
     (handleCompletedGoal vacGoal 500).is_completed = false ∧
     (handleCompletedGoal vacGoal 500).saved = vacGoal.saved) :=
  ⟨⟨by decide, by decide, by decide, by decide, by norm_num [vacGoal, pyInt]⟩,
   by norm_num [vacGoal, pyInt],
   recurring_goal_target_bump vacGoal 500 (by decide) (by decide) (by decide)
     (by decide) (by norm_num [vacGoal, pyInt])⟩

/-- The generated fallback transaction id is never the empty string. -/
theorem autoId_ne_empty (today : ℤ) (amount : ℚ) (descr : String) :
    autoId today amount descr ≠ "" := by
  intro h
  have hlen := congrArg String.length h
  simp [autoId, String.length_append] at hlen
  exact absurd hlen.1.1.1.1.1 (by decide)

/-- An emitted eligible transaction's recorded id is not in the
already-allocated set (the first check of the eligibility diff). -/
theorem eligTxn_id_not_allocated (allocated : List String) (ca cutoff today : ℤ)
    (txn : RawTxn) (t : IncomeTxn)
    (he : eligTxn allocated ca cutoff today txn = some t) : t.id ∉ allocated := by
  have hne : (if txn.id == "" then autoId today txn.amount txn.description else txn.id) ≠ "" := by
    split
    · exact autoId_ne_empty _ _ _
    · rename_i hid
      simpa using hid
  simp only [eligTxn] at he
  generalize hg : (if txn.id == "" then autoId today txn.amount txn.description
    else txn.id) = tid at he hne
  split at he
  · split at he
    · split at he
      · exact absurd he (by simp)
      · rename_i hskip
        split at he
        · injection he with h
          subst h
          intro hmem
          apply hskip
          rw [beq_eq_false_iff_ne.mpr hne]
          simpa using List.elem_eq_true_of_mem hmem
        · exact absurd he (by simp)
    · exact absurd he (by simp)
  · exact absurd he (by simp)

/-- C1: an id recorded in `allocated_transaction_ids` before a sync never
appears among the ids of the `NewIncomeSet` that the sync emits. -/
theorem allocated_id_never_in_new_income_set
    (txns : List RawTxn) (allocated : List String) (created_at prev : Option ℤ)
    (today : ℤ) (id0 : String) (hmem : id0 ∈ allocated) :
    ∀ t ∈ newIncomeSet txns allocated created_at prev today, t.id ≠ id0 := by
  intro t ht hEq
  simp only [newIncomeSet, List.mem_filterMap] at ht
  obtain ⟨txn, -, he⟩ := ht
  exact eligTxn_id_not_allocated _ _ _ _ _ _ he (hEq ▸ hmem)

/-- Witness for C1: with `"x"` already allocated, the emitted set for a
fresh credit has ids different from `"x"`. -/
theorem allocated_id_never_in_new_income_set_witness :
    ("x" ∈ (["x"] : List String)) ∧
    (⟨10, 60, "d", "y"⟩ : IncomeTxn).id ≠ "x" :=
  ⟨by decide,
   allocated_id_never_in_new_income_set [rawCredit] ["x"] (some 50) none 100 "x"
     (by decide) ⟨10, 60, "d", "y"⟩ (by decide)⟩

/-- C6: when no active goals exist, the allocation task changes no goal
balance and records no transaction id, so the same transactions remain
eligible for a later run. -/
theorem no_active_goals_is_noop (goals : List Goal) (plan : Plan)
    (txns : List IncomeTxn) (ids : List String)
    (h : goals.filter (fun g => !g.is_completed) = []) :
    (runAllocation goals plan txns ids).db = goals ∧
    (runAllocation goals plan txns ids).allocated_ids = ids ∧
    (runAllocation goals plan txns ids).actions = [] := by
  by_cases hf : (entryFilter ids txns).isEmpty
  · simp [runAllocation, hf]
  · simp [runAllocation, allocPhase, h, hf]

/-- Witness for C6: a table with a single completed goal, two fresh
transactions, and one previously allocated id. -/
theorem no_active_goals_is_noop_witness :
    (doneGoals.filter (fun g => !g.is_completed) = []) ∧
    ((runAllocation doneGoals planA txnsA ["z"]).db = doneGoals ∧
     (runAllocation doneGoals planA txnsA ["z"]).allocated_ids = ["z"] ∧
     (runAllocation doneGoals planA txnsA ["z"]).actions = []) :=
  ⟨by decide, no_active_goals_is_noop doneGoals planA txnsA ["z"] (by decide)⟩

/-- C7: Create, Disconnect, Create with the same name and payload yields
a connection whose `allocated_transaction_ids` equals the pre-disconnect
value — disconnect only flips the status, and re-creating reuses the
retained row, restoring the preserved id list. -/
theorem create_disconnect_create_preserves_ids (c : ConnCreate) :
    ∃ c1 c2, createConnection none c = Except.ok c1 ∧
      createConnection (some (disconnectConnection c1)) c = Except.ok c2 ∧
      allocatedOf c2 = allocatedOf c1 := by
  rcases hd : c.data with - | d
  · refine ⟨⟨c.name, "connected", c.data⟩, ⟨c.name, "connected", some ⟨some [], []⟩⟩,
      rfl, ?_, ?_⟩
    · simp [createConnection, disconnectConnection, allocatedOf, emptyPayload, hd]
    · simp [allocatedOf, hd]
  · rcases ha : d.allocated_transaction_ids with - | l
    · refine ⟨⟨c.name, "connected", c.data⟩,
        ⟨c.name, "connected", some { d with allocated_transaction_ids := some [] }⟩,
        rfl, ?_, ?_⟩
      · simp [createConnection, disconnectConnection, allocatedOf, hd, ha]
      · simp [allocatedOf, hd, ha]
    · by_cases hl : l = []
      · subst hl
        refine ⟨⟨c.name, "connected", c.data⟩, ⟨c.name, "connected", some d⟩,
          rfl, ?_, ?_⟩
        · simp [createConnection, disconnectConnection, allocatedOf, hd, ha]
        · simp [allocatedOf, hd, ha]
      · refine ⟨⟨c.name, "connected", c.data⟩,
          ⟨c.name, "connected", some { d with allocated_transaction_ids := some l }⟩,
          rfl, ?_, ?_⟩
        · simp [createConnection, disconnectConnection, allocatedOf, hd, ha, hl]
        · simp [allocatedOf, hd, ha]

/-- C10: whenever at least one goal allocation in a batch succeeds, the
ids of ALL transactions of the (entry-filtered) batch are appended to
`allocated_transaction_ids` — also the ids of transactions none of whose
amount was applied to any goal. -/
theorem whole_batch_marked_on_any_success (goals : List Goal) (plan : Plan)
    (txns : List IncomeTxn) (ids : List String)
    (hacts : (runAllocation goals plan txns ids).actions ≠ [])
    (t : IncomeTxn) (ht : t ∈ txns) (hid : t.id ≠ "") :
    t.id ∈ (runAllocation goals plan txns ids).allocated_ids := by
  by_cases hf : (entryFilter ids txns).isEmpty
  · exact absurd (by simp [runAllocation, hf]) hacts
  · have hres_actions : (runAllocation goals plan txns ids).actions
        = (allocPhase goals plan).2.1 := by
      simp [runAllocation, hf]
    have hacts2 : (allocPhase goals plan).2.1 ≠ [] := by
      rw [← hres_actions]; exact hacts
    have hcond : (!(allocPhase goals plan).2.1.isEmpty
        && !(entryFilter ids txns).isEmpty) = true := by
      simp only [Bool.and_eq_true, Bool.not_eq_true']
      exact ⟨by simpa [List.isEmpty_iff] using hacts2, by simpa using hf⟩
    have hres_ids : (runAllocation goals plan txns ids).allocated_ids
        = (markIds ids (entryFilter ids txns)).1 := by
      simp [runAllocation, hf, hcond]
      rw [if_neg hacts2]
    rw [hres_ids]
    by_cases hmem : t.id ∈ ids
    · simp only [markIds]
      split_ifs <;> first
        | exact hmem
        | exact List.mem_append_left _ hmem
    · have hcontf : ids.contains t.id = false := by
        cases hc : ids.contains t.id
        · rfl
        · exact absurd (List.mem_of_elem_eq_true hc) hmem
      have htf : t ∈ entryFilter ids txns := by
        simp only [entryFilter, List.mem_filter]
        refine ⟨ht, ?_⟩
        simp
        exact Or.inr hmem
      have h2 : t.id ∈ ((entryFilter ids txns).map (fun t => t.id)).filter
          (fun i => !(i == "")) := by
        rw [List.mem_filter]
        exact ⟨List.mem_map_of_mem _ htf, by simp [hid]⟩
      have h4 : t.id ∈ (((entryFilter ids txns).map (fun t => t.id)).filter
          (fun i => !(i == ""))).filter (fun i => !(ids.contains i)) := by
        rw [List.mem_filter]
        refine ⟨h2, ?_⟩
        simpa using hmem
      simp only [markIds]
      rw [if_neg (by simpa [List.isEmpty_iff] using List.ne_nil_of_mem h2),
        if_neg (by simpa [List.isEmpty_iff] using List.ne_nil_of_mem h4)]
      exact List.mem_append_right _ h4

/-- Concrete run of the single-goal fixture: one successful action. -/
theorem runAllocation_fixtureA_actions :
    (runAllocation goalsA planA txnsA []).actions = [⟨"g1", 40, false⟩] := by
  norm_num [runAllocation, allocPhase, emergencyPhase, regLoop, allocToDB,
    applyAllocPair, entryFilter, markIds, goalsA, goalA, planA, txnsA]
  try simp
  try norm_num

/-- Witness for C10: with one active goal funded from `t1`, the id of
`t2` (whose amount is never applied to any goal) is still appended. -/
theorem whole_batch_marked_on_any_success_witness :
    ((runAllocation goalsA planA txnsA []).actions ≠ [] ∧
     (⟨60, 0, "", "t2"⟩ : IncomeTxn) ∈ txnsA ∧ ("t2" : String) ≠ "") ∧
    ("t2" : String) ∈ (runAllocation goalsA planA txnsA []).allocated_ids :=
  ⟨⟨by rw [runAllocation_fixtureA_actions]; simp, by decide, by decide⟩,
   whole_batch_marked_on_any_success goalsA planA txnsA []
     (by rw [runAllocation_fixtureA_actions]; simp)
     ⟨60, 0, "", "t2"⟩ (by decide) (by decide)⟩

/-- Every event emitted by the allocation tool is a goal-table commit. -/
theorem allocToDB_trace_goal_commits (db : List Goal) (gid : String) (a : ℚ) :
    ∀ e ∈ (allocToDB db gid a).2.2, isGoalCommit e = true := by
  induction db with
  | nil => intro e he; simp [allocToDB] at he
  | cons g gs ih =>
    intro e he
    simp only [allocToDB] at he
    by_cases hg : (g.id == gid) = true
    · rw [if_pos hg] at he
      rcases List.mem_cons.mp he with rfl | he2
      · rfl
      · by_cases hcomp : (applyAllocPair g a).2 = true
        · rw [if_pos hcomp] at he2
          simp at he2
          subst he2
          rfl
        · rw [if_neg hcomp] at he2
          exact absurd he2 (by simp)
    · rw [if_neg hg] at he
      exact ih e he

/-- Every event emitted by the emergency step is a goal-table commit. -/
theorem emergencyPhase_trace_goal_commits (active : List Goal) (emAmt : ℚ)
    (db : List Goal) :
    ∀ e ∈ (emergencyPhase active emAmt db).2.2, isGoalCommit e = true := by
  intro e he
  simp only [emergencyPhase] at he
  repeat' split at he
  all_goals first
    | exact allocToDB_trace_goal_commits _ _ _ e he
    | simp at he

/-- Every event emitted by the regular-goal loop is a goal-table commit. -/
theorem regLoop_trace_goal_commits (gas : List GoalAlloc) (regs db : List Goal) :
    ∀ e ∈ (regLoop gas regs db).2.2, isGoalCommit e = true := by
  induction gas generalizing regs db with
  | nil => intro e he; simp [regLoop] at he
  | cons ga rest ih =>
    intro e he
    simp only [regLoop] at he
    repeat' split at he
    all_goals first
      | exact ih _ _ e he
      | (rcases List.mem_append.mp he with h1 | h2
         exacts [allocToDB_trace_goal_commits _ _ _ e h1, ih _ _ e h2])

/-- Every event emitted by the goal-allocation block is a goal-table
commit. -/
theorem allocPhase_trace_goal_commits (goals : List Goal) (plan : Plan) :
    ∀ e ∈ (allocPhase goals plan).2.2, isGoalCommit e = true := by
  intro e he
  simp only [allocPhase] at he
  split at he
  · exact absurd he (by simp)
  · rcases List.mem_append.mp he with h1 | h2
    · exact emergencyPhase_trace_goal_commits _ _ _ e h1
    · exact regLoop_trace_goal_commits _ _ _ e h2

/-- C2 as amended: the allocation task is not a single database
transaction. Its trace decomposes into, in this order: the per-goal
`update_goal` commits, then the email/streak side effects, then the
`allocated_transaction_ids` append commit, then the `last_sync` commit —
so side effects are dispatched after the goal updates but BEFORE the id
append and last-sync commits. -/
theorem allocation_trace_commit_order (goals : List Goal) (plan : Plan)
    (txns : List IncomeTxn) (ids : List String) :
    ∃ A B C D, (runAllocation goals plan txns ids).trace = A ++ B ++ C ++ D ∧
      (∀ e ∈ A, isGoalCommit e = true) ∧
      (∀ e ∈ B, isSideEffect e = true) ∧
      (∀ e ∈ C, ∃ l, e = Ev.commitIdsAppend l) ∧
      (∀ e ∈ D, e = Ev.commitLastSync) := by
  by_cases hf : (entryFilter ids txns).isEmpty
  · refine ⟨[], [], [], [], ?_, ?_, ?_, ?_, ?_⟩ <;> simp [runAllocation, hf]
  · refine ⟨(allocPhase goals plan).2.2,
      (if (allocPhase goals plan).2.1.isEmpty then [] else [Ev.streakUpdate, Ev.emailSend]),
      (if !(allocPhase goals plan).2.1.isEmpty && !(entryFilter ids txns).isEmpty
        then markIds ids (entryFilter ids txns) else (ids, [])).2,
      (if (allocPhase goals plan).2.1.isEmpty then [] else [Ev.commitLastSync]),
      ?_, allocPhase_trace_goal_commits goals plan, ?_, ?_, ?_⟩
    · simp [runAllocation, hf]
    · intro e he
      split at he
      · exact absurd he (by simp)
      · rcases List.mem_cons.mp he with rfl | he2
        · rfl
        · simp at he2
          subst he2
          rfl
    · intro e he
      split at he
      · simp only [markIds] at he
        repeat' split at he
        all_goals first
          | exact absurd he (List.not_mem_nil e)
          | exact ⟨_, List.mem_singleton.mp he⟩
      · exact absurd he (List.not_mem_nil e)
    · intro e he
      split at he
      · exact absurd he (List.not_mem_nil e)
      · exact List.mem_singleton.mp he

/-- Concrete trace of the single-goal fixture run: three separate
commits with the side effects in between. -/
theorem runAllocation_fixtureA_trace :
    (runAllocation goalsA planA txnsA []).trace
      = [Ev.commitGoalSaved "g1", Ev.streakUpdate, Ev.emailSend,
         Ev.commitIdsAppend ["t1", "t2"], Ev.commitLastSync] := by
  norm_num [runAllocation, allocPhase, emergencyPhase, regLoop, allocToDB,
    applyAllocPair, entryFilter, markIds, goalsA, goalA, planA, txnsA]
  try simp
  try norm_num

/-- C2 counterexample: on a concrete run with one successful allocation
the trace holds three distinct commits (goal update, id append,
last-sync), and a commit occurs after the email/streak side effects —
refuting the single-transaction claim. -/
theorem allocation_not_single_transaction :
    ¬ singleTxnClaim (runAllocation goalsA planA txnsA []).trace ∧
    countCommits (runAllocation goalsA planA txnsA []).trace = 3 ∧
    commitAfterSideEffect (runAllocation goalsA planA txnsA []).trace = true := by
  rw [singleTxnClaim, runAllocation_fixtureA_trace]
  refine ⟨?_, by decide, by decide⟩
  decide

/-- Unfolding `sumSaved` over a cons cell. -/
theorem sumSaved_cons (g : Goal) (gs : List Goal) :
    sumSaved (g :: gs) = g.saved + sumSaved gs := by
  simp [sumSaved]

/-- The allocation tool increases a goal's balance by at most the
requested amount. -/
theorem applyAlloc_saved_le (g : Goal) (a : ℚ) :
    (applyAlloc g a).saved ≤ g.saved + max 0 a := by
  have hma := le_max_right (0 : ℚ) a
  simp only [applyAlloc, applyAllocPair]
  split_ifs with hc
  · linarith
  · linarith

/-- One tool call increases the total of goal balances by at most the
requested amount. -/
theorem allocToDB_sumSaved_le (db : List Goal) (gid : String) (a : ℚ) :
    sumSaved (allocToDB db gid a).1 ≤ sumSaved db + max 0 a := by
  induction db with
  | nil => simpa [allocToDB, sumSaved] using le_max_left (0 : ℚ) a
  | cons g gs ih =>
    have h := applyAlloc_saved_le g a
    simp only [applyAlloc] at h
    simp only [allocToDB]
    split_ifs with hg hcomp <;>
      · dsimp only
        rw [sumSaved_cons, sumSaved_cons]
        linarith [ih]

/-- Variant of `allocToDB_sumSaved_le` weakened to any upper bound of the amount. -/
theorem allocToDB_sumSaved_le_of_le (db : List Goal) (gid : String) {a b : ℚ}
    (hab : a ≤ b) :
    sumSaved (allocToDB db gid a).1 ≤ sumSaved db + max 0 b :=
  le_trans (allocToDB_sumSaved_le db gid a)
    (add_le_add_left (max_le_max le_rfl hab) _)

/-- The emergency step adds at most the planned emergency amount. -/
theorem emergencyPhase_sumSaved_le (active : List Goal) (emAmt : ℚ) (db : List Goal) :
    sumSaved (emergencyPhase active emAmt db).1 ≤ sumSaved db + max 0 emAmt := by
  have h0 := le_max_left (0 : ℚ) emAmt
  simp only [emergencyPhase]
  split_ifs with h1 h2 h3 h4
  · linarith
  · dsimp only
    exact allocToDB_sumSaved_le_of_le _ _ (min_le_right _ _)
  · linarith
  · linarith
  · linarith

/-- The regular-goal loop adds at most the sum of the (nonnegative parts
of the) planned amounts. -/
theorem regLoop_sumSaved_le (gas : List GoalAlloc) (regs db : List Goal) :
    sumSaved (regLoop gas regs db).1
      ≤ sumSaved db + (gas.map (fun ga => max 0 ga.amount)).sum := by
  induction gas generalizing regs db with
  | nil => simp [regLoop]
  | cons ga rest ih =>
    have hnn : (0 : ℚ) ≤ max 0 ga.amount := le_max_left _ _
    simp only [regLoop, List.map_cons, List.sum_cons]
    split_ifs <;>
      first
        | (refine le_trans (ih _ _) ?_
           linarith)
        | (dsimp only
           refine le_trans (ih _ _) ?_
           refine le_trans
             (add_le_add_right (allocToDB_sumSaved_le_of_le _ _ (min_le_right _ _)) _) ?_
           exact le_of_eq (add_assoc _ _ _))

/-- The whole allocation block adds at most the emergency amount plus
the planned per-goal amounts. -/
theorem allocPhase_sumSaved_le (goals : List Goal) (plan : Plan) :
    sumSaved (allocPhase goals plan).1
      ≤ sumSaved goals + max 0 plan.emergency_amount
        + (plan.goal_allocations.map (fun ga => max 0 ga.amount)).sum := by
  simp only [allocPhase]
  split_ifs with h
  · have h1 : (0 : ℚ) ≤ max 0 plan.emergency_amount := le_max_left _ _
    have h2 : (0 : ℚ) ≤ (plan.goal_allocations.map (fun ga => max 0 ga.amount)).sum :=
      List.sum_nonneg (by
        intro x hx
        simp only [List.mem_map] at hx
        obtain ⟨ga, -, rfl⟩ := hx
        exact le_max_left _ _)
    linarith
  · exact le_trans (regLoop_sumSaved_le _ _ _)
      (add_le_add_right (emergencyPhase_sumSaved_le _ _ _) _)

/-- Python `int()` of a nonnegative rational is nonnegative. -/
theorem pyInt_nonneg {q : ℚ} (h : 0 ≤ q) : 0 ≤ pyInt q := by
  simp only [pyInt, if_neg (not_lt.mpr h)]
  exact_mod_cast Int.floor_nonneg.mpr h

/-- Python `int()` of a nonnegative rational is at most the rational. -/
theorem pyInt_le {q : ℚ} (h : 0 ≤ q) : pyInt q ≤ q := by
  simp only [pyInt, if_neg (not_lt.mpr h)]
  exact Int.floor_le q

/-- A capped-percentage amount is at most `c` percent of the income. -/
theorem pyInt_capped_le (income c p : ℚ) (hinc : 0 ≤ income) (hc : 0 ≤ c) :
    max 0 (pyInt (income * max 0 (min c p) / 100)) ≤ c / 100 * income := by
  have hcle : max 0 (min c p) ≤ c := max_le hc (min_le_left _ _)
  have h0 : (0 : ℚ) ≤ max 0 (min c p) := le_max_left _ _
  have hq : 0 ≤ income * max 0 (min c p) / 100 := by positivity
  rw [max_eq_right (pyInt_nonneg hq)]
  refine le_trans (pyInt_le hq) ?_
  rw [show c / 100 * income = income * c / 100 by ring]
  exact (div_le_div_right (by norm_num : (0 : ℚ) < 100)).mpr
    (mul_le_mul_of_nonneg_left hcle hinc)

/-- A list of rationals bounded by `c` sums to at most `length × c`. -/
theorem list_sum_le_length_mul {l : List ℚ} {c : ℚ}
    (h : ∀ x ∈ l, x ≤ c) : l.sum ≤ l.length * c := by
  induction l with
  | nil => simp
  | cons x xs ih =>
    have hx := h x (List.mem_cons_self _ _)
    have hxs := ih (fun y hy => h y (List.mem_cons_of_mem _ hy))
    simp only [List.sum_cons, List.length_cons]
    push_cast
    linarith

/-- Every goal amount in a capped plan is at most 25% of the income. -/
theorem mkPlanCaps_goal_amount_le (income ep : ℚ) (gps : List (String × ℚ))
    (hinc : 0 ≤ income) :
    ∀ ga ∈ (mkPlanCaps income ep gps).goal_allocations,
      max 0 ga.amount ≤ 25 / 100 * income := by
  intro ga hga
  simp only [mkPlanCaps, List.mem_map] at hga
  obtain ⟨p, -, rfl⟩ := hga
  exact pyInt_capped_le income 25 p.2 hinc (by norm_num)

/-- C5 as amended: when the plan fed to the sync allocation comes from
the percentage-capping step (emergency ≤ 15%, each goal ≤ 25% of the
income, which is the total of the entry-filtered batch) and carries at
most three goal allocations — the formula and error fallbacks produce at
most two — the total amount actually added to goal balances is at most
the batch's total credit amount. With four or more goal allocations the
bound fails (see the counterexample). -/
theorem capped_small_plan_allocates_at_most_income (goals : List Goal)
    (ep : ℚ) (gps : List (String × ℚ)) (txns : List IncomeTxn) (ids : List String)
    (hinc : 0 ≤ totalAmount (entryFilter ids txns)) (hlen : gps.length ≤ 3) :
    sumSaved (runAllocation goals
        (mkPlanCaps (totalAmount (entryFilter ids txns)) ep gps) txns ids).db
      ≤ sumSaved goals + totalAmount (entryFilter ids txns) := by
  set inc := totalAmount (entryFilter ids txns) with hincdef
  by_cases hf : (entryFilter ids txns).isEmpty
  · have hdb : (runAllocation goals (mkPlanCaps inc ep gps) txns ids).db = goals := by
      simp [runAllocation, hf]
    rw [hdb]
    linarith
  · have hdb : (runAllocation goals (mkPlanCaps inc ep gps) txns ids).db
        = (allocPhase goals (mkPlanCaps inc ep gps)).1 := by
      simp [runAllocation, hf]
    rw [hdb]
    refine le_trans (allocPhase_sumSaved_le _ _) ?_
    have hc25 : (0 : ℚ) ≤ 25 / 100 * inc := by positivity
    have hsum : ((mkPlanCaps inc ep gps).goal_allocations.map
        (fun ga => max 0 ga.amount)).sum
        ≤ (((mkPlanCaps inc ep gps).goal_allocations.map
            (fun ga => max 0 ga.amount)).length : ℚ) * (25 / 100 * inc) :=
      list_sum_le_length_mul (by
        intro x hx
        simp only [List.mem_map] at hx
        obtain ⟨ga, hga, rfl⟩ := hx
        exact mkPlanCaps_goal_amount_le inc ep gps hinc ga hga)
    have hlen' : (((mkPlanCaps inc ep gps).goal_allocations.map
        (fun ga => max 0 ga.amount)).length : ℚ) ≤ 3 := by
      simp only [List.length_map, mkPlanCaps]
      exact_mod_cast hlen
    have hmul : (((mkPlanCaps inc ep gps).goal_allocations.map
        (fun ga => max 0 ga.amount)).length : ℚ) * (25 / 100 * inc)
        ≤ 3 * (25 / 100 * inc) := mul_le_mul_of_nonneg_right hlen' hc25
    have hem : max 0 (mkPlanCaps inc ep gps).emergency_amount ≤ 15 / 100 * inc := by
      simp only [mkPlanCaps]
      exact pyInt_capped_le inc 15 ep hinc (by norm_num)
    linarith

/-- Witness for the amended C5: one ₹40 credit, one active goal,
fallback-style plan with a single 25% allocation. -/
theorem capped_small_plan_allocates_at_most_income_witness :
    ((0 : ℚ) ≤ totalAmount (entryFilter [] [⟨40, 0, "", "t1"⟩]) ∧
     ([("r1", (25 : ℚ))].length ≤ 3)) ∧
    sumSaved (runAllocation goalsA
        (mkPlanCaps (totalAmount (entryFilter [] [⟨40, 0, "", "t1"⟩])) 10 [("r1", 25)])
        [⟨40, 0, "", "t1"⟩] []).db
      ≤ sumSaved goalsA + totalAmount (entryFilter [] [⟨40, 0, "", "t1"⟩]) :=
  ⟨⟨by simp [totalAmount, entryFilter]; try norm_num, by simp⟩,
   capped_small_plan_allocates_at_most_income goalsA 10 [("r1", 25)]
     [⟨40, 0, "", "t1"⟩] []
     (by simp [totalAmount, entryFilter]; try norm_num) (by simp)⟩

/-- The five-allocation plan evaluates to a 15 emergency amount plus
five 25s. -/
theorem planC5_eval :
    planC5 = ⟨15, [⟨"r1", 25⟩, ⟨"r1", 25⟩, ⟨"r1", 25⟩, ⟨"r1", 25⟩, ⟨"r1", 25⟩]⟩ := by
  norm_num [planC5, mkPlanCaps, pyInt]

set_option maxHeartbeats 1000000 in
/-- C5 counterexample: a single ₹100 credit with a capped plan of five
25% goal allocations adds ₹125 to goal balances — more than the income
set's total credit amount. -/
theorem allocation_sum_can_exceed_income :
    totalAmount txnsC5 = 100 ∧ sumSaved goalsC5 = 0 ∧
    sumSaved (runAllocation goalsC5 planC5 txnsC5 []).db = 125 ∧
    ¬(sumSaved (runAllocation goalsC5 planC5 txnsC5 []).db - sumSaved goalsC5
        ≤ totalAmount txnsC5) := by
  have h1 : totalAmount txnsC5 = 100 := by norm_num [totalAmount, txnsC5]
  have h2 : sumSaved goalsC5 = 0 := by norm_num [sumSaved, goalsC5]
  have h3 : sumSaved (runAllocation goalsC5 planC5 txnsC5 []).db = 125 := by
    rw [planC5_eval]
    norm_num [runAllocation, allocPhase, emergencyPhase, regLoop, allocToDB,
      applyAllocPair, entryFilter, markIds, sumSaved, goalsC5, txnsC5]
    try simp
    try norm_num
  refine ⟨h1, h2, h3, ?_⟩
  rw [h1, h2, h3]
  norm_num

end DhanX
